import Mathlib

/-!
Verification of the session-redirect guard (`GlobalVerificationCheck`).

The source file `src/components/auth/GlobalVerificationCheck.tsx` contains two
revisions of the guard, separated by a document marker:
an unlatched first revision and a latched revision that adds a
`hasRedirected` ref and an `isRedirecting` state flag.  Each revision is
embedded below as a pure decision function over the session state
(`loading`, optional `user`), the current `pathname`, the `redirect` query
parameter, and the ambient environment configuration
(`NEXT_PUBLIC_POST_AUTH_REDIRECT_URL`).  The latched revision additionally
gets a step function on the guard's mutable run state and an effect-outcome
model distinguishing the synchronous `router.replace` navigations from the
`setTimeout(..., 100)`-deferred `window.location.href` assignments.
-/

namespace Guard

/-- A user object as supplied by the session provider (`useUser`):
`{ email, isVerified, role }`; the source compares `role` against the
string literal `'admin'`, so `role` is a string. -/
structure User where
  email : String
  isVerified : Bool
  role : String
deriving DecidableEq, Repr

/-- How a navigation is performed: `router.replace(...)` (history-replacing)
or an assignment to `window.location.href` (adds a history entry). -/
inductive NavMethod where
  | routerReplace
  | locationHref
deriving DecidableEq, Repr

/-- The guard's decision on one evaluation: either no navigation, or a
navigation with its method, the delay in milliseconds before it fires
(0 for synchronous calls, 100 for the `setTimeout(..., 100)` branch) and
its destination string. -/
inductive Action where
  | noAction
  | redirect (method : NavMethod) (delayMs : Nat) (dest : String)
deriving DecidableEq, Repr

/-- JavaScript's `String.prototype.startsWith(prefixStr)`: the receiver's
character sequence begins with `p`'s character sequence.  (Defined over the
underlying character lists so that it evaluates inside the kernel.) -/
def startsWith (s p : String) : Bool :=
  p.data.isPrefixOf s.data

/-- The UTF-8 byte values of a character, as JavaScript's
`encodeURIComponent` encodes non-ASCII input. -/
def utf8Bytes (c : Char) : List Nat :=
  let n := c.toNat
  if n < 128 then [n]
  else if n < 2048 then [192 + n / 64, 128 + n % 64]
  else if n < 65536 then [224 + n / 4096, 128 + (n / 64) % 64, 128 + n % 64]
  else [240 + n / 262144, 128 + (n / 4096) % 64, 128 + (n / 64) % 64, 128 + n % 64]

/-- Characters `encodeURIComponent` leaves unescaped: ASCII alphanumerics and
`- _ . ! ~ * ' ( )` (byte values 45, 95, 46, 33, 126, 42, 39, 40, 41). -/
def isUnreservedChar (c : Char) : Bool :=
  c.isAlpha || c.isDigit || [45, 95, 46, 33, 126, 42, 39, 40, 41].contains c.toNat

/-- Upper-case hexadecimal digit, as produced by `encodeURIComponent`. -/
def hexDigitChar (n : Nat) : Char :=
  if n < 10 then Char.ofNat (48 + n) else Char.ofNat (55 + n)

/-- `%XX` escape of one byte. -/
def percentEscape (n : Nat) : List Char :=
  [Char.ofNat 37, hexDigitChar (n / 16), hexDigitChar (n % 16)]

/-- JavaScript's `encodeURIComponent`: unreserved characters pass through,
every other character is replaced by the `%XX` escapes of its UTF-8 bytes. -/
def encodeURIComponent (s : String) : String :=
  String.mk (s.data.foldr
    (fun c acc =>
      if isUnreservedChar c then c :: acc else (utf8Bytes c).flatMap percentEscape ++ acc)
    [])

/-- JavaScript `x || d` on an optional string configuration value:
`undefined` and the empty string both fall back to the default. -/
def jsOrDefault (x : Option String) (d : String) : String :=
  match x with
  | none => d
  | some s => if s = "" then d else s

end Guard

namespace Guard.FirstRevision

/-- `VERIFICATION_REQUIRED_PATHS` of the first revision. -/
def VERIFICATION_REQUIRED_PATHS : List String :=
  ["/cart", "/checkout", "/orders", "/profile", "/dashboard"]

/-- `PUBLIC_PATHS` of the first revision (declared in the source but not
consulted by its effect body). -/
def PUBLIC_PATHS : List String :=
  ["/auth/verify-email", "/auth/verify-success", "/", "/shop", "/products",
   "/auth/login", "/auth/register", "/auth/forgot-password", "/auth/reset-password"]

/-- The first revision's `useEffect` body as a pure decision function.
`env` is `process.env.NEXT_PUBLIC_POST_AUTH_REDIRECT_URL`. -/
def decide (loading : Bool) (user : Option Guard.User) (pathname : String)
    (env : Option String) : Guard.Action :=
  if loading then Guard.Action.noAction
  else match user with
  | some u =>
    if u.isVerified = false then
      if Guard.startsWith pathname "/auth/verify" = false then
        Guard.Action.redirect Guard.NavMethod.routerReplace 0
          ("/auth/verify-email?email=" ++ Guard.encodeURIComponent u.email)
      else Guard.Action.noAction
    else if Guard.startsWith pathname "/auth/login" || Guard.startsWith pathname "/auth/register"
        || Guard.startsWith pathname "/auth/forgot-password" then
      Guard.Action.redirect Guard.NavMethod.routerReplace 0 (Guard.jsOrDefault env "/")
    else Guard.Action.noAction
  | none =>
    if VERIFICATION_REQUIRED_PATHS.any (fun p => Guard.startsWith pathname p) then
      Guard.Action.redirect Guard.NavMethod.routerReplace 0 "/auth/login"
    else Guard.Action.noAction

end Guard.FirstRevision

namespace Guard.Latched

/-- `VERIFICATION_REQUIRED_PATHS` of the latched revision: dashboard only. -/
def VERIFICATION_REQUIRED_PATHS : List String :=
  ["/dashboard"]

/-- `AUTH_PAGES` of the latched revision. -/
def AUTH_PAGES : List String :=
  ["/auth/login", "/auth/register", "/auth/forgot-password", "/auth/reset-password"]

/-- The latched revision's policy as a pure decision function, i.e. its
`useEffect` body with the `loading`-and-latch early return reduced to the
`loading` check alone (the latch is handled by `step` below).

`redirectParam` is `urlParams.get('redirect')` (`none` when the parameter is
absent); the source guards it with JavaScript truthiness, so the empty
string behaves like absence, and the `setTimeout` body's three sequential
returns (verbatim parameter, admin landing, default root) appear here with
the admin/default tail spelled out in both branches of the parameter
match.  `env` is
`process.env.NEXT_PUBLIC_POST_AUTH_REDIRECT_URL`; the latched source never
reads `process.env`, so the ambient configuration is ignored — it is passed
here only so that theorems can quantify over it. -/
def decide (loading : Bool) (user : Option Guard.User) (pathname : String)
    (redirectParam : Option String) (env : Option String) : Guard.Action :=
  if loading then Guard.Action.noAction
  else match user with
  | some u =>
    if u.isVerified = false then
      if Guard.startsWith pathname "/auth/verify" = false then
        Guard.Action.redirect Guard.NavMethod.routerReplace 0
          ("/auth/verify-email?email=" ++ Guard.encodeURIComponent u.email)
      else Guard.Action.noAction
    else if AUTH_PAGES.any (fun p => Guard.startsWith pathname p) then
      match redirectParam with
      | some rt =>
        if rt ≠ "" ∧ rt ≠ pathname then
          Guard.Action.redirect Guard.NavMethod.locationHref 100 rt
        else if u.role = "admin" then
          Guard.Action.redirect Guard.NavMethod.locationHref 100 "/dashboard/admin"
        else Guard.Action.redirect Guard.NavMethod.locationHref 100 "/"
      | none =>
        if u.role = "admin" then
          Guard.Action.redirect Guard.NavMethod.locationHref 100 "/dashboard/admin"
        else Guard.Action.redirect Guard.NavMethod.locationHref 100 "/"
    else Guard.Action.noAction
  | none =>
    if VERIFICATION_REQUIRED_PATHS.any (fun p => Guard.startsWith pathname p) then
      Guard.Action.redirect Guard.NavMethod.routerReplace 0
        ("/auth/login?redirect=" ++ Guard.encodeURIComponent pathname)
    else Guard.Action.noAction

/-- The latched guard's per-mount mutable run state: the `hasRedirected` ref
and the `isRedirecting` React state (both `false` on mount). -/
structure GuardState where
  hasRedirected : Bool
  isRedirecting : Bool
deriving DecidableEq, Repr

/-- The run state on mount. -/
def initialState : GuardState := ⟨false, false⟩

/-- One evaluation of the latched `useEffect`: the early return fires when
`loading`, the `hasRedirected` latch, or `isRedirecting` holds; otherwise
every branch of the source that navigates first sets both flags, and every
branch that does not navigate leaves the state untouched. -/
def step (s : GuardState) (loading : Bool) (user : Option Guard.User)
    (pathname : String) (redirectParam : Option String) (env : Option String) :
    GuardState × Guard.Action :=
  if loading || s.hasRedirected || s.isRedirecting then (s, Guard.Action.noAction)
  else match decide false user pathname redirectParam env with
  | Guard.Action.noAction => (s, Guard.Action.noAction)
  | a => (⟨true, true⟩, a)

/-- One state update delivered to a mounted guard instance. -/
structure Input where
  loading : Bool
  user : Option Guard.User
  pathname : String
  redirectParam : Option String
  env : Option String

/-- The actions a mounted guard instance emits on a sequence of state
updates, threading its run state through `step`. -/
def actionsOf : GuardState → List Input → List Guard.Action
  | _, [] => []
  | s, i :: is =>
    let r := step s i.loading i.user i.pathname i.redirectParam i.env
    r.2 :: actionsOf r.1 is

/-- The number of navigations in an emitted action sequence. -/
def navCount (as : List Guard.Action) : Nat :=
  (as.filter (fun a => a ≠ Guard.Action.noAction)).length

/-- What one latched evaluation does operationally: the destination passed
synchronously to `router.replace`, the destination whose
`window.location.href` assignment is scheduled with `setTimeout(..., 100)`,
and whether the `useEffect` registered a cleanup function that would cancel
that timer.  The latched effect body returns no cleanup function, so
`cleanup` is `false` on every branch. -/
structure EffectOutcome where
  immediate : Option String
  scheduled : Option String
  cleanup : Bool
deriving DecidableEq, Repr

/-- The operational outcome of one latched evaluation from run state `s`. -/
def effectOutcome (s : GuardState) (loading : Bool) (user : Option Guard.User)
    (pathname : String) (redirectParam : Option String) (env : Option String) :
    EffectOutcome :=
  match (step s loading user pathname redirectParam env).2 with
  | Guard.Action.noAction => ⟨none, none, false⟩
  | Guard.Action.redirect Guard.NavMethod.routerReplace _ d => ⟨some d, none, false⟩
  | Guard.Action.redirect Guard.NavMethod.locationHref _ d => ⟨none, some d, false⟩

/-- The navigation that still fires after the guard unmounts while the
scheduled timer is pending: a registered cleanup would cancel the timer,
and without one the scheduled `window.location.href` assignment proceeds. -/
def navAfterUnmount (o : EffectOutcome) : Option String :=
  if o.cleanup then none else o.scheduled

end Guard.Latched

namespace Guard.Latched

/-- Auxiliary: a single step either leaves the state unchanged with no
action, or emits a navigation and moves to the fully latched state. -/
theorem step_cases (s : GuardState) (loading : Bool) (user : Option Guard.User)
    (pathname : String) (redirectParam : Option String) (env : Option String) :
    (step s loading user pathname redirectParam env = (s, Guard.Action.noAction)) ∨
    ((step s loading user pathname redirectParam env).1 = (⟨true, true⟩ : GuardState) ∧
      (step s loading user pathname redirectParam env).2 ≠ Guard.Action.noAction ∧
      s.hasRedirected = false ∧ s.isRedirecting = false ∧ loading = false) := by
  by_cases hg : (loading || s.hasRedirected || s.isRedirecting) = true
  · exact Or.inl (by unfold step; rw [if_pos hg])
  · have hl : loading = false := by cases loading <;> simp_all
    have hr : s.hasRedirected = false := by cases h : s.hasRedirected <;> simp_all
    have hi : s.isRedirecting = false := by cases h : s.isRedirecting <;> simp_all
    unfold step
    rw [if_neg hg]
    split
    · exact Or.inl rfl
    · rename_i a h
      exact Or.inr ⟨rfl, h, hr, hi, hl⟩

/-- Auxiliary: from a state with the `hasRedirected` latch set, a run emits
no navigation at all. -/
theorem navCount_of_latched (is : List Input) (s : GuardState)
    (h : s.hasRedirected = true) : navCount (actionsOf s is) = 0 := by
  induction is generalizing s with
  | nil => simp [actionsOf, navCount]
  | cons i is ih =>
    have hs : step s i.loading i.user i.pathname i.redirectParam i.env
        = (s, Guard.Action.noAction) := by
      unfold step
      rw [if_pos (by simp [h])]
    simp [actionsOf, hs, navCount] at ih ⊢
    exact ih s h

/-- Auxiliary: from any state, a run emits at most one navigation. -/
theorem navCount_le_one (is : List Input) (s : GuardState) :
    navCount (actionsOf s is) ≤ 1 := by
  induction is generalizing s with
  | nil => simp [actionsOf, navCount]
  | cons i is ih =>
    rcases step_cases s i.loading i.user i.pathname i.redirectParam i.env with hs | ⟨h1, h2, _⟩
    · simpa [actionsOf, hs, navCount] using ih s
    · have hz := navCount_of_latched is (step s i.loading i.user i.pathname
        i.redirectParam i.env).1 (by rw [h1])
      show navCount ((step s i.loading i.user i.pathname i.redirectParam i.env).2 ::
        actionsOf (step s i.loading i.user i.pathname i.redirectParam i.env).1 is) ≤ 1
      unfold navCount at hz ⊢
      rw [List.filter_cons, if_pos (by simpa using h2), List.length_cons, hz]

/-- C1: for any sequence of state updates delivered to a single mounted
latched guard instance, at most one navigation is issued; after the first
redirect the latch suppresses every later one, however the inputs change. -/
theorem atMostOneNavigationPerMount (is : List Input) :
    navCount (actionsOf initialState is) ≤ 1 :=
  navCount_le_one is initialState

/-- C2: an unverified user is redirected to the verification page with the
percent-encoded email in the query whenever the path is not under
`/auth/verify`, and left alone whenever it is. -/
theorem unverifiedContainment (u : Guard.User) (pathname : String)
    (rt env : Option String) (h : u.isVerified = false) :
    (Guard.startsWith pathname "/auth/verify" = false →
      decide false (some u) pathname rt env =
        Guard.Action.redirect Guard.NavMethod.routerReplace 0
          ("/auth/verify-email?email=" ++ Guard.encodeURIComponent u.email)) ∧
    (Guard.startsWith pathname "/auth/verify" = true →
      decide false (some u) pathname rt env = Guard.Action.noAction) := by
  constructor <;> intro hp <;> simp [decide, h, hp]

/-- Witness for C2 at a concrete unverified user on `/` and on the
verification page itself. -/
theorem unverifiedContainment_witness :
    decide false (some ⟨"a@b.com", false, "customer"⟩) "/" none none =
      Guard.Action.redirect Guard.NavMethod.routerReplace 0
        "/auth/verify-email?email=a%40b.com" ∧
    decide false (some ⟨"a@b.com", false, "customer"⟩) "/auth/verify-email" none none =
      Guard.Action.noAction := by
  constructor
  · have h :=
      (unverifiedContainment ⟨"a@b.com", false, "customer"⟩ "/" none none rfl).1 (by decide)
    rw [h]; decide
  · exact (unverifiedContainment ⟨"a@b.com", false, "customer"⟩ "/auth/verify-email"
      none none rfl).2 (by decide)

/-- C3 counterexample: with the configured post-auth destination set to
`/welcome`, the latched egress still lands a verified customer on `/`
(the configuration is never read), and a present-but-empty `redirect`
parameter also yields `/` rather than its (empty) value. -/
theorem egressIgnoresConfigAndEmptyParam :
    (decide false (some ⟨"u@example.com", true, "customer"⟩) "/auth/login" none
        (some "/welcome") =
      Guard.Action.redirect Guard.NavMethod.locationHref 100 "/" ∧
      ("/" : String) ≠ "/welcome") ∧
    (decide false (some ⟨"u@example.com", true, "customer"⟩) "/auth/login"
        (some "") none =
      Guard.Action.redirect Guard.NavMethod.locationHref 100 "/" ∧
      ("/" : String) ≠ "") := by
  decide

/-- C3 (amended): on an auth-entry page a verified user's destination is the
`redirect` parameter when it is present, non-empty and differs from the
current path; otherwise `/dashboard/admin` for admins and the root `/` for
everyone else — the latched revision never consults the configured default
post-auth landing page. -/
theorem egressDestinationOrder (u : Guard.User) (pathname : String)
    (rt env : Option String) (hv : u.isVerified = true)
    (hp : AUTH_PAGES.any (fun p => Guard.startsWith pathname p) = true) :
    (∀ s, rt = some s → s ≠ "" → s ≠ pathname →
      decide false (some u) pathname rt env =
        Guard.Action.redirect Guard.NavMethod.locationHref 100 s) ∧
    ((rt = none ∨ rt = some "" ∨ rt = some pathname) → u.role = "admin" →
      decide false (some u) pathname rt env =
        Guard.Action.redirect Guard.NavMethod.locationHref 100 "/dashboard/admin") ∧
    ((rt = none ∨ rt = some "" ∨ rt = some pathname) → u.role ≠ "admin" →
      decide false (some u) pathname rt env =
        Guard.Action.redirect Guard.NavMethod.locationHref 100 "/") := by
  refine ⟨?_, ?_, ?_⟩
  · rintro s rfl hs hsp
    simp [decide, hv, hp, hs, hsp]
  · rintro (rfl | rfl | rfl) hrole <;> simp [decide, hv, hp, hrole]
  · rintro (rfl | rfl | rfl) hrole <;> simp [decide, hv, hp, hrole]

/-- Witness for C3 (amended): admin fallback, customer fallback, and a
non-empty differing `redirect` parameter, each at concrete inputs. -/
theorem egressDestinationOrder_witness :
    decide false (some ⟨"a@b.com", true, "admin"⟩) "/auth/login" none none =
      Guard.Action.redirect Guard.NavMethod.locationHref 100 "/dashboard/admin" ∧
    decide false (some ⟨"a@b.com", true, "customer"⟩) "/auth/login" none none =
      Guard.Action.redirect Guard.NavMethod.locationHref 100 "/" ∧
    decide false (some ⟨"a@b.com", true, "customer"⟩) "/auth/login" (some "/foo") none =
      Guard.Action.redirect Guard.NavMethod.locationHref 100 "/foo" := by
  refine ⟨?_, ?_, ?_⟩
  · exact (egressDestinationOrder ⟨"a@b.com", true, "admin"⟩ "/auth/login" none none rfl
      (by decide)).2.1 (Or.inl rfl) rfl
  · exact (egressDestinationOrder ⟨"a@b.com", true, "customer"⟩ "/auth/login" none none rfl
      (by decide)).2.2 (Or.inl rfl) (by decide)
  · exact (egressDestinationOrder ⟨"a@b.com", true, "customer"⟩ "/auth/login" (some "/foo")
      none rfl (by decide)).1 "/foo" rfl (by decide) (by decide)

/-- C4: an anonymous session on a protected path is redirected to the login
page with the requested path percent-encoded under the `redirect`
parameter. -/
theorem anonymousProtectedRedirect (pathname : String) (rt env : Option String)
    (hp : VERIFICATION_REQUIRED_PATHS.any (fun p => Guard.startsWith pathname p) = true) :
    decide false none pathname rt env =
      Guard.Action.redirect Guard.NavMethod.routerReplace 0
        ("/auth/login?redirect=" ++ Guard.encodeURIComponent pathname) := by
  simp [decide, hp]

/-- Witness for C4 at the concrete protected path `/dashboard`. -/
theorem anonymousProtectedRedirect_witness :
    decide false none "/dashboard" none none =
      Guard.Action.redirect Guard.NavMethod.routerReplace 0
        "/auth/login?redirect=%2Fdashboard" := by
  have h := anonymousProtectedRedirect "/dashboard" none none (by decide)
  rw [h]; decide

/-- C5: while the session is loading, neither revision's decision function
ever navigates, whatever the user, path, query parameter and
configuration. -/
theorem noActionWhileLoading (user : Option Guard.User) (pathname : String)
    (rt env : Option String) :
    decide true user pathname rt env = Guard.Action.noAction ∧
    Guard.FirstRevision.decide true user pathname env = Guard.Action.noAction := by
  constructor <;> rfl

/-- C6 counterexample: the latched verified-user egress navigates by
assigning `window.location.href` (after a 100 ms delay), not through the
history-replacing `router.replace`. -/
theorem egressNotViaReplace :
    decide false (some ⟨"v@example.com", true, "customer"⟩) "/auth/register" none none =
      Guard.Action.redirect Guard.NavMethod.locationHref 100 "/" ∧
    Guard.NavMethod.locationHref ≠ Guard.NavMethod.routerReplace := by
  decide

/-- C6 (amended): every latched-guard navigation is either a synchronous
`router.replace` (the verification-containment and anonymous-protection
branches) or a `window.location.href` assignment scheduled 100 ms later,
the latter exactly in the verified-user egress from an auth-entry page. -/
theorem navigationMethodByBranch (loading : Bool) (user : Option Guard.User)
    (pathname : String) (rt env : Option String) (m : Guard.NavMethod) (d : Nat)
    (dest : String)
    (h : decide loading user pathname rt env = Guard.Action.redirect m d dest) :
    (m = Guard.NavMethod.routerReplace ∧ d = 0) ∨
    (m = Guard.NavMethod.locationHref ∧ d = 100 ∧
      ∃ u, user = some u ∧ u.isVerified = true ∧
        AUTH_PAGES.any (fun p => Guard.startsWith pathname p) = true) := by
  unfold decide at h
  split at h
  · exact absurd h (by simp)
  · split at h
    · rename_i u
      split at h
      · split at h
        · injection h with hm hd
          exact Or.inl ⟨hm.symm, hd.symm⟩
        · exact absurd h (by simp)
      · rename_i hnv
        have hv : u.isVerified = true := by cases hb : u.isVerified <;> simp_all
        split at h
        · rename_i hauth
          refine Or.inr ?_
          split at h
          · split at h
            · injection h with hm hd
              exact ⟨hm.symm, hd.symm, u, rfl, hv, hauth⟩
            · split at h <;> injection h with hm hd <;>
                exact ⟨hm.symm, hd.symm, u, rfl, hv, hauth⟩
          · split at h <;> injection h with hm hd <;>
              exact ⟨hm.symm, hd.symm, u, rfl, hv, hauth⟩
        · exact absurd h (by simp)
    · split at h
      · injection h with hm hd
        exact Or.inl ⟨hm.symm, hd.symm⟩
      · exact absurd h (by simp)

/-- Witness for C6 (amended) at the anonymous-protection branch on
`/dashboard`. -/
theorem navigationMethodByBranch_witness :
    (Guard.NavMethod.routerReplace = Guard.NavMethod.routerReplace ∧ (0 : Nat) = 0) ∨
    (Guard.NavMethod.routerReplace = Guard.NavMethod.locationHref ∧ (0 : Nat) = 100 ∧
      ∃ u, (none : Option Guard.User) = some u ∧ u.isVerified = true ∧
        AUTH_PAGES.any (fun p => Guard.startsWith "/dashboard" p) = true) :=
  navigationMethodByBranch false none "/dashboard" none none
    Guard.NavMethod.routerReplace 0 "/auth/login?redirect=%2Fdashboard" (by decide)

/-- C7: the latched effect registers no cleanup, so the 100 ms-deferred
egress navigation still fires after the guard unmounts — here a verified
customer on `/auth/login` is still sent to `/`. -/
theorem scheduledNavigationSurvivesUnmount :
    navAfterUnmount
      (effectOutcome initialState false (some ⟨"v@example.com", true, "customer"⟩)
        "/auth/login" none none) = some "/" := by
  decide

/-- C8 counterexample: a present-but-empty `redirect` parameter is not
navigated to verbatim; JavaScript truthiness sends the user to `/`
instead. -/
theorem emptyRedirectParamNotVerbatim :
    decide false (some ⟨"w@example.com", true, "customer"⟩) "/auth/login" (some "") none =
      Guard.Action.redirect Guard.NavMethod.locationHref 100 "/" ∧
    ("/" : String) ≠ "" := by
  decide

/-- C8 (amended): whenever the `redirect` parameter is present, non-empty
and differs from the current path, the latched egress navigates to its
value verbatim — no validation, allow-listing or same-origin restriction
of any kind. -/
theorem openRedirectVerbatim (u : Guard.User) (pathname s : String) (env : Option String)
    (hv : u.isVerified = true)
    (hp : AUTH_PAGES.any (fun p => Guard.startsWith pathname p) = true)
    (hs : s ≠ "") (hsp : s ≠ pathname) :
    decide false (some u) pathname (some s) env =
      Guard.Action.redirect Guard.NavMethod.locationHref 100 s := by
  simp [decide, hv, hp, hs, hsp]

/-- Witness for C8 (amended): `redirect=https://evil.example` sends the
user off-site. -/
theorem openRedirectVerbatim_witness :
    decide false (some ⟨"adm@example.com", true, "admin"⟩) "/auth/login"
        (some "https://evil.example") none =
      Guard.Action.redirect Guard.NavMethod.locationHref 100 "https://evil.example" :=
  openRedirectVerbatim ⟨"adm@example.com", true, "admin"⟩ "/auth/login"
    "https://evil.example" none rfl (by decide) (by decide) (by decide)

/-- C9: an evaluation that results in no action leaves the guard's run state
exactly as it was, and an evaluation that navigates sets both flags and can
only happen from the unlatched state — so no-action evaluations never
consume the redirect budget. -/
theorem stepFrameAndLatch (s : GuardState) (loading : Bool) (user : Option Guard.User)
    (pathname : String) (rt env : Option String) :
    ((step s loading user pathname rt env).2 = Guard.Action.noAction →
      (step s loading user pathname rt env).1 = s) ∧
    ((step s loading user pathname rt env).2 ≠ Guard.Action.noAction →
      (step s loading user pathname rt env).1 = (⟨true, true⟩ : GuardState) ∧
        s.hasRedirected = false ∧ s.isRedirecting = false) := by
  rcases step_cases s loading user pathname rt env with hs | ⟨h1, h2, hr, hi, -⟩
  · constructor
    · intro _; rw [hs]
    · intro hn; rw [hs] at hn; simp at hn
  · constructor
    · intro hn; exact absurd hn h2
    · intro _; exact ⟨h1, hr, hi⟩

/-- Witness for C9: the anonymous-protection navigation on `/dashboard`
latches the freshly mounted guard. -/
theorem stepFrameAndLatch_witness :
    (step initialState false none "/dashboard" none none).1 =
      (⟨true, true⟩ : GuardState) ∧
    initialState.hasRedirected = false ∧ initialState.isRedirecting = false :=
  (stepFrameAndLatch initialState false none "/dashboard" none none).2 (by decide)

/-- C10: in the latched revision the protected set is exactly the
`/dashboard` prefix — every other anonymous path is left alone, and every
`/dashboard`-prefixed one triggers the login redirect. -/
theorem dashboardOnlyProtection (pathname : String) (rt env : Option String) :
    (Guard.startsWith pathname "/dashboard" = false →
      decide false none pathname rt env = Guard.Action.noAction) ∧
    (Guard.startsWith pathname "/dashboard" = true →
      decide false none pathname rt env =
        Guard.Action.redirect Guard.NavMethod.routerReplace 0
          ("/auth/login?redirect=" ++ Guard.encodeURIComponent pathname)) := by
  constructor <;> intro hp <;> simp [decide, VERIFICATION_REQUIRED_PATHS, hp]

/-- Witness for C10: `/cart`, `/checkout`, `/orders` and `/profile` pass
through while `/dashboard/settings` redirects. -/
theorem dashboardOnlyProtection_witness :
    decide false none "/cart" none none = Guard.Action.noAction ∧
    decide false none "/checkout" none none = Guard.Action.noAction ∧
    decide false none "/orders" none none = Guard.Action.noAction ∧
    decide false none "/profile" none none = Guard.Action.noAction ∧
    decide false none "/dashboard/settings" none none =
      Guard.Action.redirect Guard.NavMethod.routerReplace 0
        "/auth/login?redirect=%2Fdashboard%2Fsettings" := by
  refine ⟨?_, ?_, ?_, ?_, ?_⟩
  · exact (dashboardOnlyProtection "/cart" none none).1 (by decide)
  · exact (dashboardOnlyProtection "/checkout" none none).1 (by decide)
  · exact (dashboardOnlyProtection "/orders" none none).1 (by decide)
  · exact (dashboardOnlyProtection "/profile" none none).1 (by decide)
  · have h := (dashboardOnlyProtection "/dashboard/settings" none none).2 (by decide)
    rw [h]; decide

end Guard.Latched
